import Mathlib

/-!
Verification of the segment-backed dictionary layer and the usort hint family
of a Cairo-family virtual machine's hint runner.

The Go source is shallowly embedded: Go maps and the `*uint64` free-offset
cell are reference types, so dictionaries hold reference identifiers into an
explicit `DictHeap`; `uint64` arithmetic is `Nat` arithmetic modulo `2 ^ 64`;
fallible operations return `Except`.
-/

namespace CairoVM

/-- Association-list lookup: first binding for the key, if any.  Models a Go
map read restricted to the keys actually bound. -/
def alookup {α β : Type} [DecidableEq α] : List (α × β) → α → Option β
  | [], _ => none
  | (k, v) :: rest, k2 => if k = k2 then some v else alookup rest k2

/-- Association-list update: replace the binding for the key in place, or
append a fresh binding.  Models a Go map write. -/
def aset {α β : Type} [DecidableEq α] : List (α × β) → α → β → List (α × β)
  | [], k, v => [(k, v)]
  | (k0, v0) :: rest, k, v =>
      if k0 = k then (k, v) :: rest else (k0, v0) :: aset rest k v

/-- A VM memory address: a (segment index, offset) pair
(`memory.MemoryAddress`). -/
structure MemoryAddress where
  segmentIndex : Nat
  offset : Nat
deriving DecidableEq

/-- `memory.MemoryValue`: a tagged union of a field element, a relocatable
address, and the distinguished `UnknownValue` sentinel.  Field elements are
represented by their canonical `Nat` residue. -/
inductive MemoryValue
  | unknown
  | felt (v : Nat)
  | addr (a : MemoryAddress)
deriving DecidableEq

/-- The modulus of the Go `uint64` free-offset counter. -/
def U64MOD : Nat := 18446744073709551616

/-- The STARK curve base field prime, the modulus of `fp.Element`. -/
def PRIME : Nat := 3618502788666131213697322783095070105623107215331596699973092056135872020481

/-- Heap of reference cells behind `ZeroDictionary`: `maps` holds the
`Data` Go maps (shared map references) and `cells` the `*uint64`
`FreeOffset` cells.  References `≥ nextRef` are unallocated. -/
structure DictHeap where
  maps : List (Nat × List (Nat × MemoryValue))
  cells : List (Nat × Nat)
  nextRef : Nat
deriving DecidableEq

/-- The contents of the Go map behind reference `r` (empty if unallocated). -/
def DictHeap.mapAt (h : DictHeap) (r : Nat) : List (Nat × MemoryValue) :=
  (alookup h.maps r).getD []

/-- The value of the `uint64` cell behind reference `r` (0 if unallocated). -/
def DictHeap.cellAt (h : DictHeap) (r : Nat) : Nat :=
  (alookup h.cells r).getD 0

/-- `ZeroDictionary`: `Data` is a Go map reference, `DefaultValue` an inline
`MemoryValue`, `FreeOffset` a pointer to a `uint64` cell. -/
structure ZeroDictionary where
  dataRef : Nat
  defaultValue : MemoryValue
  freeOffsetRef : Nat
deriving DecidableEq

/-- Errors of the dictionary layer. -/
inductive DictError
  | noValueForKey (key : Nat)
  | unknownDictionary (addr : MemoryAddress)
deriving DecidableEq

/-- `ZeroDictionary.at`: return the value stored for `key`; on a miss return
`DefaultValue` when it is not `UnknownValue`, otherwise fail.  The method
never writes, so the heap is returned unchanged. -/
def ZeroDictionary.at (d : ZeroDictionary) (h : DictHeap) (key : Nat) :
    Except DictError MemoryValue × DictHeap :=
  match alookup (h.mapAt d.dataRef) key with
  | some value => (Except.ok value, h)
  | none =>
      if d.defaultValue ≠ MemoryValue.unknown then (Except.ok d.defaultValue, h)
      else (Except.error (DictError.noValueForKey key), h)

/-- `ZeroDictionary.set`: upsert `Data[key] = value` through the shared map
reference. -/
def ZeroDictionary.set (d : ZeroDictionary) (h : DictHeap) (key : Nat)
    (value : MemoryValue) : DictHeap :=
  { h with maps := aset h.maps d.dataRef (aset (h.mapAt d.dataRef) key value) }

/-- `ZeroDictionary.incrementFreeOffset`: `*d.FreeOffset += delta` with
`uint64` wrap-around. -/
def ZeroDictionary.incrementFreeOffset (d : ZeroDictionary) (h : DictHeap)
    (delta : Nat) : DictHeap :=
  { h with cells := aset h.cells d.freeOffsetRef ((h.cellAt d.freeOffsetRef + delta) % U64MOD) }

/-- `ZeroDictionary.setFreeOffset`: `*d.FreeOffset = value` (the argument is
a `uint64`, hence reduced modulo `2 ^ 64`). -/
def ZeroDictionary.setFreeOffset (d : ZeroDictionary) (h : DictHeap)
    (value : Nat) : DictHeap :=
  { h with cells := aset h.cells d.freeOffsetRef (value % U64MOD) }

/-- `CopyZeroDictionary`: build a fresh map holding copies of every
key/value pair, copy `DefaultValue`, and allocate a fresh `uint64` cell
holding the current free offset.  Keys and values are plain data, so the
entry-by-entry copy of the source yields the same association list; the two
fresh references are `h.nextRef` and `h.nextRef + 1`.  (The source's
`FreeOffset == nil` branch is unreachable here: every dictionary the manager
creates carries an allocated cell.) -/
def CopyZeroDictionary (h : DictHeap) (d : ZeroDictionary) :
    DictHeap × ZeroDictionary :=
  (⟨aset h.maps h.nextRef (h.mapAt d.dataRef),
    aset h.cells (h.nextRef + 1) (h.cellAt d.freeOffsetRef),
    h.nextRef + 2⟩,
   ⟨h.nextRef, d.defaultValue, h.nextRef + 1⟩)

/-- The observable state of one dictionary: its map contents, its default
value, and its free-offset counter. -/
def dictObs (h : DictHeap) (d : ZeroDictionary) :
    List (Nat × MemoryValue) × MemoryValue × Nat :=
  (h.mapAt d.dataRef, d.defaultValue, h.cellAt d.freeOffsetRef)

/-- `ZeroDictionaryManager`: segment index → dictionary registry. -/
structure ZeroDictionaryManager where
  Dictionaries : List (Nat × ZeroDictionary)
deriving DecidableEq

/-- `ZeroDictionaryManager.GetDictionary`: resolve a handle address by its
segment index only. -/
def ZeroDictionaryManager.GetDictionary (dm : ZeroDictionaryManager)
    (dictAddr : MemoryAddress) : Except DictError ZeroDictionary :=
  match alookup dm.Dictionaries dictAddr.segmentIndex with
  | some dict => Except.ok dict
  | none => Except.error (DictError.unknownDictionary dictAddr)

/-- `ZeroDictionaryManager.At`: resolve by segment index, then delegate to
`ZeroDictionary.at`. -/
def ZeroDictionaryManager.At (dm : ZeroDictionaryManager) (h : DictHeap)
    (dictAddr : MemoryAddress) (key : Nat) :
    Except DictError MemoryValue × DictHeap :=
  match alookup dm.Dictionaries dictAddr.segmentIndex with
  | some dict => dict.at h key
  | none => (Except.error (DictError.unknownDictionary dictAddr), h)

/-- `ZeroDictionaryManager.Set`: resolve by segment index, then delegate to
`ZeroDictionary.set`. -/
def ZeroDictionaryManager.Set (dm : ZeroDictionaryManager) (h : DictHeap)
    (dictAddr : MemoryAddress) (key : Nat) (value : MemoryValue) :
    Except DictError Unit × DictHeap :=
  match alookup dm.Dictionaries dictAddr.segmentIndex with
  | some dict => (Except.ok (), dict.set h key value)
  | none => (Except.error (DictError.unknownDictionary dictAddr), h)

/-- `ZeroDictionaryManager.IncrementFreeOffset`: resolve, then delegate. -/
def ZeroDictionaryManager.IncrementFreeOffset (dm : ZeroDictionaryManager)
    (h : DictHeap) (dictAddr : MemoryAddress) (incrementBy : Nat) :
    Except DictError Unit × DictHeap :=
  match alookup dm.Dictionaries dictAddr.segmentIndex with
  | some dict => (Except.ok (), dict.incrementFreeOffset h incrementBy)
  | none => (Except.error (DictError.unknownDictionary dictAddr), h)

/-- `ZeroDictionaryManager.SetFreeOffset`: resolve, then delegate. -/
def ZeroDictionaryManager.SetFreeOffset (dm : ZeroDictionaryManager)
    (h : DictHeap) (dictAddr : MemoryAddress) (freeOffset : Nat) :
    Except DictError Unit × DictHeap :=
  match alookup dm.Dictionaries dictAddr.segmentIndex with
  | some dict => (Except.ok (), dict.setFreeOffset h freeOffset)
  | none => (Except.error (DictError.unknownDictionary dictAddr), h)

/-- Example heap used by concrete witnesses. -/
def hEx : DictHeap := ⟨[(0, [(1, MemoryValue.felt 5)])], [(1, 7)], 2⟩

/-- Example dictionary (strict mode) living in `hEx`. -/
def dEx : ZeroDictionary := ⟨0, MemoryValue.unknown, 1⟩

/-- Example manager registering `dEx` under segment index 4. -/
def dmEx : ZeroDictionaryManager := ⟨[(4, dEx)]⟩

/-- The dynamically-typed payloads the usort hints store in scope variables,
as a closed tagged variant.  The Go type assertions distinguish `int` from
`int64` and `[]uint64` from `[]int64`, so the variant keeps those kinds
apart. -/
inductive ScopeValue
  | felt (v : Nat)
  | goInt (v : Int)
  | goInt64 (v : Int)
  | uint64List (l : List Nat)
  | int64List (l : List Int)
  | positionsDict (m : List (Nat × List Nat))
deriving DecidableEq

/-- One scope frame: name → payload. -/
def Frame : Type := List (String × ScopeValue)

/-- The scope stack; the head is the current (top) frame. -/
def ScopeManager : Type := List Frame

/-- The errors a usort hint run can surface. -/
inductive HintError
  | variableNotFound (name : String)
  | noScope
  | castingError (msg : String)
  | assertionFailed (msg : String)
  | popFromEmptySlice
  | memoryWriteConflict (addr : MemoryAddress)
deriving DecidableEq

/-- Modelled from the spec: the external ScopeManager's `getVariable` looks
the name up in the current top frame only and fails with `VariableNotFound`
when absent (the ScopeManager implementation itself is outside the provided
sources; §4.3 pins this behavior). -/
def getVariableValue (sm : ScopeManager) (name : String) :
    Except HintError ScopeValue :=
  match sm with
  | [] => Except.error HintError.noScope
  | f :: _ =>
      match alookup f name with
      | some v => Except.ok v
      | none => Except.error (HintError.variableNotFound name)

/-- Modelled from the spec: `assignVariable` binds or overwrites one name in
the current top frame. -/
def assignVariable (sm : ScopeManager) (name : String) (v : ScopeValue) :
    Except HintError ScopeManager :=
  match sm with
  | [] => Except.error HintError.noScope
  | f :: rest => Except.ok (aset f name v :: rest)

/-- Modelled from the spec: `assignVariables` binds each of the given
bindings in the current top frame (the Go map iteration order is immaterial
because the hints always pass distinct names). -/
def assignVariables (sm : ScopeManager) :
    List (String × ScopeValue) → Except HintError ScopeManager
  | [] => Except.ok sm
  | (name, v) :: rest =>
      match assignVariable sm name v with
      | Except.ok sm2 => assignVariables sm2 rest
      | Except.error e => Except.error e

/-- Modelled from the spec: `enterScope` pushes a new frame seeded with
exactly the given bindings. -/
def enterScope (sm : ScopeManager) (f : Frame) : ScopeManager := f :: sm

/-- VM memory restricted to the cells written so far. -/
def Memory : Type := List (MemoryAddress × MemoryValue)

/-- Modelled from the spec: the external `Memory.WriteToAddress` is
write-once — writing a cell that already holds a different value fails
(§6). -/
def writeToAddress (m : Memory) (a : MemoryAddress) (v : MemoryValue) :
    Except HintError Memory :=
  match alookup m a with
  | some v0 => if v0 = v then Except.ok m else Except.error (HintError.memoryWriteConflict a)
  | none => Except.ok (aset m a v)

/-- Modelled from the spec: `utils.Pop` removes and returns the LAST element
of the slice, failing on an empty slice (the `positions` working stack is
popped from the back, which is what turns the reversed sequence back into
ascending original order). -/
def popLast {α : Type} (l : List α) : Option (List α × α) :=
  match l.getLast? with
  | some x => some (l.dropLast, x)
  | none => none

/-- The canonical residue of an `int64` seen as a STARK field element
(`memory.MemoryValueFromInt`): non-negative values embed directly, negative
values wrap to `PRIME - |v|`. -/
def feltOfInt (i : Int) : Nat := (i % (PRIME : Int)).toNat

/-- `memory.MemoryValueFromInt`. -/
def memoryValueFromInt (i : Int) : MemoryValue := MemoryValue.felt (feltOfInt i)

/-- `newUsortEnterScopeHint`: read `__usort_max_size` from the current scope
and enter a new scope holding only that binding. -/
def usortEnterScopeRun (mem : Memory) (sm : ScopeManager) :
    Except HintError (Memory × ScopeManager) :=
  match getVariableValue sm "__usort_max_size" with
  | Except.error e => Except.error e
  | Except.ok v => Except.ok (mem, enterScope sm [("__usort_max_size", v)])

/-- `newUsortVerifyMultiplicityAssertHint`: read `positions`, require it to
be a `[]uint64`, and fail unless it is empty.  Nothing is written, so the
memory and scope are returned unchanged. -/
def usortVerifyMultiplicityAssertRun (mem : Memory) (sm : ScopeManager) :
    Except HintError (Memory × ScopeManager) :=
  match getVariableValue sm "positions" with
  | Except.error e => Except.error e
  | Except.ok (ScopeValue.uint64List l) =>
      if l.length ≠ 0 then
        Except.error (HintError.assertionFailed "assertion `len(positions) == 0` failed")
      else Except.ok (mem, sm)
  | Except.ok _ =>
      Except.error (HintError.castingError "casting positions into an array failed")

/-- The `positions_dict` contents after `utils.Reverse` ran on the slice
fetched for `value`: the reversal happens in place through the shared
backing array, so when the key is present its stored sequence is reversed;
a missing key yields the nil slice and leaves the map untouched. -/
def verifyDictAfter (pd : List (Nat × List Nat)) (value : Nat) :
    List (Nat × List Nat) :=
  match alookup pd value with
  | some s => aset pd value s.reverse
  | none => pd

/-- `newUsortVerifyHint` with the operand already resolved to the felt
`value`: read `positions_dict` (propagating the scope error when absent,
failing with the casting error when ill-typed), reverse the sequence for
`value` in place, and assign `last_pos := 0` (a Go `int`) and `positions :=`
the reversed sequence into the current scope.  The in-place
`utils.Reverse` mutation of the shared map is made explicit by rebinding
`positions_dict` to the mutated map. -/
def usortVerifyRun (value : Nat) (mem : Memory) (sm : ScopeManager) :
    Except HintError (Memory × ScopeManager) :=
  match getVariableValue sm "positions_dict" with
  | Except.error e => Except.error e
  | Except.ok (ScopeValue.positionsDict pd) =>
      match assignVariable sm "positions_dict" (ScopeValue.positionsDict (verifyDictAfter pd value)) with
      | Except.error e => Except.error e
      | Except.ok sm1 =>
          match assignVariables sm1
              [("last_pos", ScopeValue.goInt 0),
               ("positions", ScopeValue.uint64List ((alookup pd value).getD []).reverse)] with
          | Except.error e => Except.error e
          | Except.ok sm2 => Except.ok (mem, sm2)
  | Except.ok _ =>
      Except.error (HintError.castingError "casting positions_dict into an dictionary failed")

/-- `newUsortVerifyMultiplicityBodyHint` with the operand already resolved
to the address `nextItemIndex`: read `positions` as a `[]int64` and pop its
last element, then read the scope variables `current_pos` and `last_pos` as
`int64`, write `current_pos - last_pos` to the `next_item_index` cell, and
assign `current_pos :=` the popped value and `last_pos := current_pos + 1`.
The shortened slice is a local value the source never stores back. -/
def usortVerifyMultiplicityBodyRun (nextItemIndex : MemoryAddress)
    (mem : Memory) (sm : ScopeManager) :
    Except HintError (Memory × ScopeManager) :=
  match getVariableValue sm "positions" with
  | Except.error e => Except.error e
  | Except.ok (ScopeValue.int64List positions) =>
      match popLast positions with
      | none => Except.error HintError.popFromEmptySlice
      | some (_, newCurrentPos) =>
          match getVariableValue sm "current_pos" with
          | Except.error e => Except.error e
          | Except.ok (ScopeValue.goInt64 currentPosInt) =>
              match getVariableValue sm "last_pos" with
              | Except.error e => Except.error e
              | Except.ok (ScopeValue.goInt64 lastPosInt) =>
                  match writeToAddress mem nextItemIndex (memoryValueFromInt (currentPosInt - lastPosInt)) with
                  | Except.error e => Except.error e
                  | Except.ok mem1 =>
                      match assignVariables sm
                          [("current_pos", ScopeValue.goInt64 newCurrentPos),
                           ("last_pos", ScopeValue.goInt64 (currentPosInt + 1))] with
                      | Except.error e => Except.error e
                      | Except.ok sm1 => Except.ok (mem1, sm1)
              | Except.ok _ =>
                  Except.error (HintError.castingError "cannot cast last_pos to int64")
          | Except.ok _ =>
              Except.error (HintError.castingError "cannot cast current_pos to int64")
  | Except.ok _ =>
      Except.error (HintError.castingError "cannot cast positionsInterface to []int64")

/-- `createUsortEnterScopeHinter`: constructs the enter-scope hint. -/
def createUsortEnterScopeHinter :
    Except HintError (Memory → ScopeManager → Except HintError (Memory × ScopeManager)) :=
  Except.ok usortEnterScopeRun

/-- `createUsortVerifyMultiplicityAssertHinter`, translated exactly as
written: the source's constructor body is `return newUsortEnterScopeHint(), nil`,
so the hint it registers is the enter-scope hint, not the assertion hint. -/
def createUsortVerifyMultiplicityAssertHinter :
    Except HintError (Memory → ScopeManager → Except HintError (Memory × ScopeManager)) :=
  Except.ok usortEnterScopeRun

/-- The top frame left by a successful `usortVerifyRun` over a frame `f`
whose `positions_dict` held `pd`. -/
def verifyFrameAfter (f : Frame) (pd : List (Nat × List Nat)) (value : Nat) : Frame :=
  aset (aset (aset f "positions_dict" (ScopeValue.positionsDict (verifyDictAfter pd value)))
      "last_pos" (ScopeValue.goInt 0))
    "positions" (ScopeValue.uint64List ((alookup pd value).getD []).reverse)

/-- Scenario C scope for the multiplicity-body hint: `positions = [8, 6, 4]`
(a `[]int64`), `last_pos = 2`, nothing else. -/
def scenCScope : ScopeManager :=
  [[("positions", ScopeValue.int64List [8, 6, 4]), ("last_pos", ScopeValue.goInt64 2)]]

/-- Scenario C scope extended with a stale `current_pos = 7`. -/
def scenCScopeCur : ScopeManager :=
  [[("positions", ScopeValue.int64List [8, 6, 4]), ("last_pos", ScopeValue.goInt64 2),
    ("current_pos", ScopeValue.goInt64 7)]]

/-- The destination address used for `next_item_index` in the scenarios. -/
def addrC : MemoryAddress := ⟨1, 0⟩

/-- Context for C2: a scope whose `positions` is the non-empty `[1]` and
which also binds `__usort_max_size`, so the (wrongly registered) enter-scope
hint succeeds where the assertion hint must fail. -/
def scenAssertScope : ScopeManager :=
  [[("positions", ScopeValue.uint64List [1]), ("__usort_max_size", ScopeValue.felt 1)]]

/-- Scenario B frame: `positions_dict[0] = [1, 2, 3]`. -/
def verifyScopeFrame : Frame :=
  [("positions_dict", ScopeValue.positionsDict [(0, [1, 2, 3])])]

theorem alookup_aset_self {α β : Type} [DecidableEq α]
    (l : List (α × β)) (k : α) (v : β) : alookup (aset l k v) k = some v := by
  induction l with
  | nil => simp [aset, alookup]
  | cons p rest ih =>
      obtain ⟨k0, v0⟩ := p
      by_cases hk : k0 = k
      · simp [aset, hk, alookup]
      · simp [aset, hk, alookup, ih]

theorem alookup_aset_ne {α β : Type} [DecidableEq α]
    (l : List (α × β)) (k k2 : α) (v : β) (hne : k ≠ k2) :
    alookup (aset l k v) k2 = alookup l k2 := by
  induction l with
  | nil => simp [aset, alookup, hne]
  | cons p rest ih =>
      obtain ⟨k0, v0⟩ := p
      by_cases hk : k0 = k
      · subst hk
        simp [aset, alookup, hne]
      · simp [aset, hk, alookup, ih]

/-- The copy of `hEx` produced by `CopyZeroDictionary hEx dEx`. -/
def h2Ex : DictHeap :=
  ⟨[(0, [(1, MemoryValue.felt 5)]), (2, [(1, MemoryValue.felt 5)])],
   [(1, 7), (3, 7)], 4⟩

/-- The dictionary record produced by `CopyZeroDictionary hEx dEx`. -/
def d2Ex : ZeroDictionary := ⟨2, MemoryValue.unknown, 3⟩

/-- C3: `ZeroDictionary.at` returns the stored value on a hit; on a miss it
returns the default value when that is concrete and fails with
`NoValueForKey` when the default is `UnknownValue`; in every case the heap
(hence the dictionary's `Data`) is left unchanged. -/
theorem zeroDictionary_at_spec (d : ZeroDictionary) (h : DictHeap) (k : Nat) :
    (∀ v, alookup (h.mapAt d.dataRef) k = some v →
      d.at h k = (Except.ok v, h)) ∧
    (alookup (h.mapAt d.dataRef) k = none →
      d.defaultValue ≠ MemoryValue.unknown →
      d.at h k = (Except.ok d.defaultValue, h)) ∧
    (alookup (h.mapAt d.dataRef) k = none →
      d.defaultValue = MemoryValue.unknown →
      d.at h k = (Except.error (DictError.noValueForKey k), h)) ∧
    (d.at h k).2 = h := by
  refine ⟨?_, ?_, ?_, ?_⟩
  · intro v hv
    simp [ZeroDictionary.at, hv]
  · intro hn hd
    simp [ZeroDictionary.at, hn, hd]
  · intro hn hd
    simp [ZeroDictionary.at, hn, hd]
  · unfold ZeroDictionary.at
    cases alookup (h.mapAt d.dataRef) k with
    | some v => rfl
    | none =>
        by_cases hd : d.defaultValue = MemoryValue.unknown <;> simp [hd]

/-- Witness for C3: concrete hit, concrete strict miss, and heap preservation
on the example dictionary. -/
theorem zeroDictionary_at_spec_witness :
    alookup (hEx.mapAt dEx.dataRef) 1 = some (MemoryValue.felt 5) ∧
    dEx.at hEx 1 = (Except.ok (MemoryValue.felt 5), hEx) ∧
    alookup (hEx.mapAt dEx.dataRef) 2 = none ∧
    dEx.defaultValue = MemoryValue.unknown ∧
    dEx.at hEx 2 = (Except.error (DictError.noValueForKey 2), hEx) := by
  refine ⟨by rfl, ?_, by rfl, by rfl, ?_⟩
  · exact (zeroDictionary_at_spec dEx hEx 1).1 (MemoryValue.felt 5) (by rfl)
  · exact (zeroDictionary_at_spec dEx hEx 2).2.2.1 (by rfl) (by rfl)

/-- C7: two successive `incrementFreeOffset` calls with deltas `n` and `m`
leave the free-offset counter exactly where a single
`setFreeOffset(initial + n + m)` would, in `uint64` arithmetic. -/
theorem freeOffset_increment_compose (d : ZeroDictionary) (h : DictHeap)
    (n m : Nat) :
    DictHeap.cellAt (d.incrementFreeOffset (d.incrementFreeOffset h n) m)
        d.freeOffsetRef =
      DictHeap.cellAt (d.setFreeOffset h (h.cellAt d.freeOffsetRef + n + m))
        d.freeOffsetRef := by
  unfold ZeroDictionary.incrementFreeOffset ZeroDictionary.setFreeOffset
    DictHeap.cellAt
  simp [alookup_aset_self, Nat.mod_add_mod]

/-- C4: manager resolution uses only the handle's segment index (addresses
sharing a segment index resolve to the same dictionary), fails exactly when
no dictionary is registered for that segment, and every delegated operation
resolves first — propagating `UnknownDictionary` on failure and otherwise
acting on the resolved dictionary. -/
theorem manager_resolution_spec (dm : ZeroDictionaryManager) (h : DictHeap)
    (a a2 : MemoryAddress) (k : Nat) (v : MemoryValue) (n w : Nat) :
    (a.segmentIndex = a2.segmentIndex →
      ∀ d, dm.GetDictionary a = Except.ok d ↔ dm.GetDictionary a2 = Except.ok d) ∧
    (dm.GetDictionary a = Except.error (DictError.unknownDictionary a) ↔
      alookup dm.Dictionaries a.segmentIndex = none) ∧
    (∀ d, dm.GetDictionary a = Except.ok d →
      dm.At h a k = d.at h k ∧
      dm.Set h a k v = (Except.ok (), d.set h k v) ∧
      dm.IncrementFreeOffset h a n = (Except.ok (), d.incrementFreeOffset h n) ∧
      dm.SetFreeOffset h a w = (Except.ok (), d.setFreeOffset h w)) ∧
    (alookup dm.Dictionaries a.segmentIndex = none →
      dm.At h a k = (Except.error (DictError.unknownDictionary a), h) ∧
      dm.Set h a k v = (Except.error (DictError.unknownDictionary a), h) ∧
      dm.IncrementFreeOffset h a n = (Except.error (DictError.unknownDictionary a), h) ∧
      dm.SetFreeOffset h a w = (Except.error (DictError.unknownDictionary a), h)) := by
  refine ⟨?_, ?_, ?_, ?_⟩
  · intro hseg d
    unfold ZeroDictionaryManager.GetDictionary
    rw [hseg]
    cases alookup dm.Dictionaries a2.segmentIndex with
    | some d0 => simp
    | none => simp
  · unfold ZeroDictionaryManager.GetDictionary
    cases halk : alookup dm.Dictionaries a.segmentIndex with
    | some d0 => simp
    | none => simp
  · intro d hd
    have halk : alookup dm.Dictionaries a.segmentIndex = some d := by
      unfold ZeroDictionaryManager.GetDictionary at hd
      cases halk : alookup dm.Dictionaries a.segmentIndex with
      | some d0 =>
          rw [halk] at hd
          simp at hd
          rw [hd]
      | none =>
          rw [halk] at hd
          simp at hd
    refine ⟨?_, ?_, ?_, ?_⟩ <;>
      simp [ZeroDictionaryManager.At, ZeroDictionaryManager.Set,
        ZeroDictionaryManager.IncrementFreeOffset,
        ZeroDictionaryManager.SetFreeOffset, halk]
  · intro halk
    refine ⟨?_, ?_, ?_, ?_⟩ <;>
      simp [ZeroDictionaryManager.At, ZeroDictionaryManager.Set,
        ZeroDictionaryManager.IncrementFreeOffset,
        ZeroDictionaryManager.SetFreeOffset, halk]

/-- Witness for C4: the example manager resolves two addresses with equal
segment index and different offsets to the same dictionary, delegates `At`,
and fails with `UnknownDictionary` on an unregistered segment. -/
theorem manager_resolution_spec_witness :
    (MemoryAddress.mk 4 0).segmentIndex = (MemoryAddress.mk 4 9).segmentIndex ∧
    (dmEx.GetDictionary ⟨4, 0⟩ = Except.ok dEx ↔
      dmEx.GetDictionary ⟨4, 9⟩ = Except.ok dEx) ∧
    dmEx.GetDictionary ⟨4, 0⟩ = Except.ok dEx ∧
    dmEx.At hEx ⟨4, 0⟩ 1 = dEx.at hEx 1 ∧
    alookup dmEx.Dictionaries 5 = none ∧
    dmEx.At hEx ⟨5, 0⟩ 1 = (Except.error (DictError.unknownDictionary ⟨5, 0⟩), hEx) := by
  refine ⟨by rfl, ?_, by rfl, ?_, by rfl, ?_⟩
  · exact (manager_resolution_spec dmEx hEx ⟨4, 0⟩ ⟨4, 9⟩ 1 MemoryValue.unknown 0 0).1 (by rfl) dEx
  · exact ((manager_resolution_spec dmEx hEx ⟨4, 0⟩ ⟨4, 9⟩ 1 MemoryValue.unknown 0 0).2.2.1 dEx (by rfl)).1
  · exact ((manager_resolution_spec dmEx hEx ⟨5, 0⟩ ⟨4, 9⟩ 1 MemoryValue.unknown 0 0).2.2.2 (by rfl)).1

/-- C8: `CopyZeroDictionary` yields a dictionary observationally equal to the
source at the moment of copying, and afterwards `set`, `incrementFreeOffset`
and `setFreeOffset` on either dictionary leave the other's data, default
value and free offset unchanged.  (`DefaultValue` is stored by value inside
each record, so replacing one record's default can never reach the other.) -/
theorem copyZeroDictionary_independent (h h2 : DictHeap) (d d2 : ZeroDictionary)
    (hdata : d.dataRef < h.nextRef) (hcell : d.freeOffsetRef < h.nextRef)
    (hc : CopyZeroDictionary h d = (h2, d2))
    (k : Nat) (v : MemoryValue) (n w : Nat) :
    dictObs h2 d2 = dictObs h d ∧
    dictObs h2 d = dictObs h d ∧
    d2.defaultValue = d.defaultValue ∧
    dictObs (d2.set h2 k v) d = dictObs h2 d ∧
    dictObs (d2.incrementFreeOffset h2 n) d = dictObs h2 d ∧
    dictObs (d2.setFreeOffset h2 w) d = dictObs h2 d ∧
    dictObs (d.set h2 k v) d2 = dictObs h2 d2 ∧
    dictObs (d.incrementFreeOffset h2 n) d2 = dictObs h2 d2 ∧
    dictObs (d.setFreeOffset h2 w) d2 = dictObs h2 d2 := by
  unfold CopyZeroDictionary at hc
  obtain ⟨hh2, hd2⟩ := Prod.mk.injEq .. |>.mp hc
  subst hh2
  subst hd2
  have hne1 : h.nextRef ≠ d.dataRef := by omega
  have hne2 : h.nextRef + 1 ≠ d.freeOffsetRef := by omega
  have hne3 : d.dataRef ≠ h.nextRef := by omega
  have hne4 : d.freeOffsetRef ≠ h.nextRef + 1 := by omega
  refine ⟨?_, ?_, ?_, ?_, ?_, ?_, ?_, ?_, ?_⟩ <;>
    simp [dictObs, DictHeap.mapAt, DictHeap.cellAt, ZeroDictionary.set,
      ZeroDictionary.incrementFreeOffset, ZeroDictionary.setFreeOffset,
      alookup_aset_self, alookup_aset_ne _ _ _ _ hne1,
      alookup_aset_ne _ _ _ _ hne2, alookup_aset_ne _ _ _ _ hne3,
      alookup_aset_ne _ _ _ _ hne4]

/-- Witness for C8: the example copy is observationally equal to its source
and mutations on each side leave the other side's observations intact. -/
theorem copyZeroDictionary_independent_witness :
    dEx.dataRef < hEx.nextRef ∧ dEx.freeOffsetRef < hEx.nextRef ∧
    CopyZeroDictionary hEx dEx = (h2Ex, d2Ex) ∧
    dictObs h2Ex d2Ex = dictObs hEx dEx ∧
    dictObs (d2Ex.set h2Ex 9 (MemoryValue.felt 1)) dEx = dictObs h2Ex dEx ∧
    dictObs (dEx.incrementFreeOffset h2Ex 3) d2Ex = dictObs h2Ex d2Ex := by
  refine ⟨by decide, by decide, by rfl, ?_, ?_, ?_⟩
  · exact (copyZeroDictionary_independent hEx h2Ex dEx d2Ex (by decide)
      (by decide) (by rfl) 9 (MemoryValue.felt 1) 3 0).1
  · exact (copyZeroDictionary_independent hEx h2Ex dEx d2Ex (by decide)
      (by decide) (by rfl) 9 (MemoryValue.felt 1) 3 0).2.2.2.1
  · exact (copyZeroDictionary_independent hEx h2Ex dEx d2Ex (by decide)
      (by decide) (by rfl) 9 (MemoryValue.felt 1) 3 0).2.2.2.2.2.2.2.1

theorem usortVerifyRun_eval (value : Nat) (mem : Memory) (f : Frame)
    (rest : ScopeManager) (pd : List (Nat × List Nat))
    (hf : alookup f "positions_dict" = some (ScopeValue.positionsDict pd)) :
    usortVerifyRun value mem (f :: rest) =
      Except.ok (mem, verifyFrameAfter f pd value :: rest) := by
  have hgv : getVariableValue (f :: rest) "positions_dict" =
      Except.ok (ScopeValue.positionsDict pd) := by
    simp [getVariableValue, hf]
  unfold usortVerifyRun
  rw [hgv]
  rfl

theorem verifyFrameAfter_positions (f : Frame) (pd : List (Nat × List Nat))
    (value : Nat) :
    alookup (verifyFrameAfter f pd value) "positions" =
      some (ScopeValue.uint64List ((alookup pd value).getD []).reverse) :=
  alookup_aset_self _ _ _

theorem verifyFrameAfter_lastPos (f : Frame) (pd : List (Nat × List Nat))
    (value : Nat) :
    alookup (verifyFrameAfter f pd value) "last_pos" =
      some (ScopeValue.goInt 0) := by
  unfold verifyFrameAfter
  rw [alookup_aset_ne _ _ _ _ (by decide)]
  exact alookup_aset_self _ _ _

theorem verifyFrameAfter_positionsDict (f : Frame) (pd : List (Nat × List Nat))
    (value : Nat) :
    alookup (verifyFrameAfter f pd value) "positions_dict" =
      some (ScopeValue.positionsDict (verifyDictAfter pd value)) := by
  unfold verifyFrameAfter
  rw [alookup_aset_ne _ _ _ _ (by decide), alookup_aset_ne _ _ _ _ (by decide)]
  exact alookup_aset_self _ _ _

/-- C6: over a scope whose `positions` is a well-typed `[]uint64`, the
multiplicity-assert hint succeeds exactly when the sequence is empty —
returning the memory and scope unchanged — and otherwise fails with the
assertion error whose text states `len(positions) == 0`. -/
theorem usort_assert_spec (mem : Memory) (sm : ScopeManager) (l : List Nat)
    (hpos : getVariableValue sm "positions" = Except.ok (ScopeValue.uint64List l)) :
    usortVerifyMultiplicityAssertRun mem sm =
      if l = [] then Except.ok (mem, sm)
      else Except.error (HintError.assertionFailed "assertion `len(positions) == 0` failed") := by
  unfold usortVerifyMultiplicityAssertRun
  rw [hpos]
  cases l with
  | nil => simp
  | cons x xs => simp

/-- Witness for C6: the assert hint succeeds on an empty `positions` and
fails with the assertion error on `[1]`. -/
theorem usort_assert_spec_witness :
    getVariableValue [[("positions", ScopeValue.uint64List [])]] "positions" =
      Except.ok (ScopeValue.uint64List []) ∧
    usortVerifyMultiplicityAssertRun [] [[("positions", ScopeValue.uint64List [])]] =
      Except.ok ([], [[("positions", ScopeValue.uint64List [])]]) ∧
    usortVerifyMultiplicityAssertRun [] [[("positions", ScopeValue.uint64List [1])]] =
      Except.error (HintError.assertionFailed "assertion `len(positions) == 0` failed") := by
  refine ⟨by rfl, ?_, ?_⟩
  · have h := usort_assert_spec [] [[("positions", ScopeValue.uint64List [])]] [] (by rfl)
    simpa using h
  · have h := usort_assert_spec [] [[("positions", ScopeValue.uint64List [1])]] [1] (by rfl)
    simpa using h

/-- C5 counterexample: with `positions_dict` absent from the scope, the
verify hint fails with the propagated `VariableNotFound` error, which is not
the casting error the claim names for that case. -/
theorem usort_verify_absent_counterexample :
    usortVerifyRun 0 [] [[]] =
      Except.error (HintError.variableNotFound "positions_dict") ∧
    HintError.variableNotFound "positions_dict" ≠
      HintError.castingError "casting positions_dict into an dictionary failed" :=
  ⟨by rfl, by decide⟩

/-- C5 (amended): when `positions_dict` is a well-typed map and the resolved
value is one of its keys, the verify hint succeeds and assigns `positions :=`
the reverse of `positions_dict[value]` and `last_pos := 0` into the current
scope; it fails with the propagated variable-not-found error when
`positions_dict` is absent, and with the casting error when it is present
but not of the expected type. -/
theorem usort_verify_spec (value : Nat) (mem : Memory) (f : Frame)
    (rest : ScopeManager) (pd : List (Nat × List Nat)) (s : List Nat)
    (w : ScopeValue) :
    (alookup f "positions_dict" = some (ScopeValue.positionsDict pd) →
      alookup pd value = some s →
      usortVerifyRun value mem (f :: rest) =
        Except.ok (mem, verifyFrameAfter f pd value :: rest) ∧
      getVariableValue (verifyFrameAfter f pd value :: rest) "positions" =
        Except.ok (ScopeValue.uint64List s.reverse) ∧
      getVariableValue (verifyFrameAfter f pd value :: rest) "last_pos" =
        Except.ok (ScopeValue.goInt 0)) ∧
    (getVariableValue (f :: rest) "positions_dict" =
        Except.error (HintError.variableNotFound "positions_dict") →
      usortVerifyRun value mem (f :: rest) =
        Except.error (HintError.variableNotFound "positions_dict")) ∧
    (alookup f "positions_dict" = some w →
      (∀ pd2, w ≠ ScopeValue.positionsDict pd2) →
      usortVerifyRun value mem (f :: rest) =
        Except.error (HintError.castingError "casting positions_dict into an dictionary failed")) := by
  refine ⟨?_, ?_, ?_⟩
  · intro h1 h2
    refine ⟨usortVerifyRun_eval value mem f rest pd h1, ?_, ?_⟩
    · simp [getVariableValue, verifyFrameAfter_positions, h2]
    · simp [getVariableValue, verifyFrameAfter_lastPos]
  · intro hmiss
    cases halk : alookup f "positions_dict" with
    | some v =>
        exfalso
        have : getVariableValue (f :: rest) "positions_dict" = Except.ok v := by
          simp [getVariableValue, halk]
        rw [this] at hmiss
        simp at hmiss
    | none =>
        have hgv : getVariableValue (f :: rest) "positions_dict" =
            Except.error (HintError.variableNotFound "positions_dict") := by
          simp [getVariableValue, halk]
        unfold usortVerifyRun
        rw [hgv]
  · intro hw hnot
    have hgv : getVariableValue (f :: rest) "positions_dict" = Except.ok w := by
      simp [getVariableValue, hw]
    unfold usortVerifyRun
    rw [hgv]
    cases w with
    | positionsDict m => exact absurd rfl (hnot m)
    | felt v => rfl
    | goInt v => rfl
    | goInt64 v => rfl
    | uint64List l => rfl
    | int64List l => rfl

/-- Witness for C5: Scenario B — `positions_dict[0] = [1, 2, 3]` yields
`positions = [3, 2, 1]` and `last_pos = 0`. -/
theorem usort_verify_spec_witness :
    alookup verifyScopeFrame "positions_dict" =
      some (ScopeValue.positionsDict [(0, [1, 2, 3])]) ∧
    alookup [(0, [1, 2, 3])] 0 = some [1, 2, 3] ∧
    usortVerifyRun 0 [] [verifyScopeFrame] =
      Except.ok ([], [verifyFrameAfter verifyScopeFrame [(0, [1, 2, 3])] 0]) ∧
    getVariableValue [verifyFrameAfter verifyScopeFrame [(0, [1, 2, 3])] 0] "positions" =
      Except.ok (ScopeValue.uint64List [3, 2, 1]) ∧
    getVariableValue [verifyFrameAfter verifyScopeFrame [(0, [1, 2, 3])] 0] "last_pos" =
      Except.ok (ScopeValue.goInt 0) := by
  have h := (usort_verify_spec 0 [] verifyScopeFrame [] [(0, [1, 2, 3])] [1, 2, 3]
    (ScopeValue.goInt 0)).1 (by rfl) (by rfl)
  exact ⟨by rfl, by rfl, h.1, by simpa using h.2.1, h.2.2⟩

/-- C9: a successful verify reverses the sequence stored inside the scope's
`positions_dict` itself (the shared backing array), so afterwards
`positions_dict[value]` holds the reversed order and a second verify of the
same value restores the original order. -/
theorem usort_verify_inplace (value : Nat) (mem : Memory) (f : Frame)
    (rest : ScopeManager) (pd : List (Nat × List Nat)) (s : List Nat)
    (h1 : alookup f "positions_dict" = some (ScopeValue.positionsDict pd))
    (h2 : alookup pd value = some s) :
    usortVerifyRun value mem (f :: rest) =
      Except.ok (mem, verifyFrameAfter f pd value :: rest) ∧
    getVariableValue (verifyFrameAfter f pd value :: rest) "positions_dict" =
      Except.ok (ScopeValue.positionsDict (aset pd value s.reverse)) ∧
    alookup (aset pd value s.reverse) value = some s.reverse ∧
    usortVerifyRun value mem (verifyFrameAfter f pd value :: rest) =
      Except.ok (mem,
        verifyFrameAfter (verifyFrameAfter f pd value) (aset pd value s.reverse) value :: rest) ∧
    getVariableValue
        (verifyFrameAfter (verifyFrameAfter f pd value) (aset pd value s.reverse) value :: rest)
        "positions" = Except.ok (ScopeValue.uint64List s) ∧
    getVariableValue
        (verifyFrameAfter (verifyFrameAfter f pd value) (aset pd value s.reverse) value :: rest)
        "positions_dict" =
      Except.ok (ScopeValue.positionsDict (aset (aset pd value s.reverse) value s)) := by
  have hpd : verifyDictAfter pd value = aset pd value s.reverse := by
    unfold verifyDictAfter
    rw [h2]
  have hlk2 : alookup (verifyFrameAfter f pd value) "positions_dict" =
      some (ScopeValue.positionsDict (aset pd value s.reverse)) := by
    rw [verifyFrameAfter_positionsDict, hpd]
  have hself : alookup (aset pd value s.reverse) value = some s.reverse :=
    alookup_aset_self _ _ _
  have hpd2 : verifyDictAfter (aset pd value s.reverse) value =
      aset (aset pd value s.reverse) value s := by
    unfold verifyDictAfter
    rw [hself]
    simp
  refine ⟨usortVerifyRun_eval value mem f rest pd h1, ?_, hself, ?_, ?_, ?_⟩
  · simp [getVariableValue, hlk2]
  · exact usortVerifyRun_eval value mem _ rest _ hlk2
  · simp [getVariableValue, verifyFrameAfter_positions, hself]
  · simp [getVariableValue, verifyFrameAfter_positionsDict, hpd2]

/-- Witness for C9: after verifying value 0 over `positions_dict[0] = [1, 2, 3]`
the stored sequence itself reads `[3, 2, 1]`, and a second verify restores
`positions = [1, 2, 3]`. -/
theorem usort_verify_inplace_witness :
    alookup verifyScopeFrame "positions_dict" =
      some (ScopeValue.positionsDict [(0, [1, 2, 3])]) ∧
    alookup [(0, [1, 2, 3])] 0 = some [1, 2, 3] ∧
    getVariableValue [verifyFrameAfter verifyScopeFrame [(0, [1, 2, 3])] 0] "positions_dict" =
      Except.ok (ScopeValue.positionsDict [(0, [3, 2, 1])]) ∧
    getVariableValue
        [verifyFrameAfter (verifyFrameAfter verifyScopeFrame [(0, [1, 2, 3])] 0)
          [(0, [3, 2, 1])] 0] "positions" =
      Except.ok (ScopeValue.uint64List [1, 2, 3]) := by
  have h := usort_verify_inplace 0 [] verifyScopeFrame [] [(0, [1, 2, 3])] [1, 2, 3]
    (by rfl) (by rfl)
  exact ⟨by rfl, by rfl, by simpa using h.2.1, by simpa using h.2.2.2.2.1⟩

/-- C10: when the well-typed `positions_dict` has no entry for the resolved
value, the verify hint still succeeds, assigning `positions :=` the empty
sequence and `last_pos := 0`, and a directly following multiplicity-assert
over that scope succeeds. -/
theorem usort_verify_missing_key (value : Nat) (mem : Memory) (f : Frame)
    (rest : ScopeManager) (pd : List (Nat × List Nat))
    (h1 : alookup f "positions_dict" = some (ScopeValue.positionsDict pd))
    (h2 : alookup pd value = none) :
    usortVerifyRun value mem (f :: rest) =
      Except.ok (mem, verifyFrameAfter f pd value :: rest) ∧
    getVariableValue (verifyFrameAfter f pd value :: rest) "positions" =
      Except.ok (ScopeValue.uint64List []) ∧
    getVariableValue (verifyFrameAfter f pd value :: rest) "last_pos" =
      Except.ok (ScopeValue.goInt 0) ∧
    usortVerifyMultiplicityAssertRun mem (verifyFrameAfter f pd value :: rest) =
      Except.ok (mem, verifyFrameAfter f pd value :: rest) := by
  have hposlk : alookup (verifyFrameAfter f pd value) "positions" =
      some (ScopeValue.uint64List []) := by
    rw [verifyFrameAfter_positions, h2]
    rfl
  refine ⟨usortVerifyRun_eval value mem f rest pd h1, ?_, ?_, ?_⟩
  · simp [getVariableValue, hposlk]
  · simp [getVariableValue, verifyFrameAfter_lastPos]
  · have hgv : getVariableValue (verifyFrameAfter f pd value :: rest) "positions" =
        Except.ok (ScopeValue.uint64List []) := by
      simp [getVariableValue, hposlk]
    unfold usortVerifyMultiplicityAssertRun
    rw [hgv]
    rfl

/-- Witness for C10: value 7 is absent from `positions_dict[0] = [1, 2, 3]`,
yet verify succeeds with empty `positions`, and the assert then succeeds. -/
theorem usort_verify_missing_key_witness :
    alookup verifyScopeFrame "positions_dict" =
      some (ScopeValue.positionsDict [(0, [1, 2, 3])]) ∧
    alookup [(0, [1, 2, 3])] 7 = none ∧
    usortVerifyRun 7 [] [verifyScopeFrame] =
      Except.ok ([], [verifyFrameAfter verifyScopeFrame [(0, [1, 2, 3])] 7]) ∧
    getVariableValue [verifyFrameAfter verifyScopeFrame [(0, [1, 2, 3])] 7] "positions" =
      Except.ok (ScopeValue.uint64List []) ∧
    usortVerifyMultiplicityAssertRun [] [verifyFrameAfter verifyScopeFrame [(0, [1, 2, 3])] 7] =
      Except.ok ([], [verifyFrameAfter verifyScopeFrame [(0, [1, 2, 3])] 7]) := by
  have h := usort_verify_missing_key 7 [] verifyScopeFrame [] [(0, [1, 2, 3])]
    (by rfl) (by rfl)
  exact ⟨by rfl, by rfl, h.1, h.2.1, h.2.2.2⟩

/-- C1: on Scenario C (`positions = [8, 6, 4]`, `last_pos = 2`) the
multiplicity-body hint does not pop-and-emit as claimed: it fails with a
variable-not-found error for the extra scope variable `current_pos`; and
when a stale `current_pos = 7` is present it emits `current_pos - last_pos = 5`
(not the claimed popped-minus-cursor gap 2), sets `last_pos` to
`current_pos + 1 = 8` (not 5), and leaves the scope's `positions` at its
full length. -/
theorem usort_body_scenarioC_bug :
    usortVerifyMultiplicityBodyRun addrC [] scenCScope =
      Except.error (HintError.variableNotFound "current_pos") ∧
    usortVerifyMultiplicityBodyRun addrC [] scenCScopeCur =
      Except.ok ([(addrC, MemoryValue.felt 5)],
        [[("positions", ScopeValue.int64List [8, 6, 4]),
          ("last_pos", ScopeValue.goInt64 8),
          ("current_pos", ScopeValue.goInt64 4)]]) :=
  ⟨by rfl, by rfl⟩

/-- C2: the constructor registered under the UsortVerifyMultiplicityAssert
name returns the enter-scope hint instead of the assertion hint: on a scope
with non-empty `positions` (and `__usort_max_size` bound) the hint it
constructs succeeds by pushing a scope, while the real assertion hint fails
with the `len(positions) == 0` assertion error. -/
theorem usort_assert_creator_bug :
    createUsortVerifyMultiplicityAssertHinter = Except.ok usortEnterScopeRun ∧
    usortEnterScopeRun [] scenAssertScope =
      Except.ok ([], [("__usort_max_size", ScopeValue.felt 1)] :: scenAssertScope) ∧
    usortVerifyMultiplicityAssertRun [] scenAssertScope =
      Except.error (HintError.assertionFailed "assertion `len(positions) == 0` failed") :=
  ⟨rfl, by rfl, by rfl⟩

end CairoVM
